import Mathlib

/-!
Verification of the time-series analysis and classification engine of the
satellite-data repository (`src/api/services/openet_service.py`,
class `OpenETDataProcessor`).

The Python code is shallowly embedded: floating-point values are modelled as
exact rationals (`ℚ`), Python's banker's rounding (`round`, `np.round`) as
`roundHalfEven`/`roundTo`, the `%Y-%m-%d` date handling of
`datetime.strptime`/`strftime` as `parseDate`/`formatDate`, and the logging
side channel as an explicit list of `LogLevel` values.  An uncaught Python
exception (e.g. `IndexError` on `dates[max_idx]`) is modelled by the
`AnalyzeResult.err` outcome.
-/

set_option maxRecDepth 4096

/-- Severity of a log message emitted through `logging.Logger`. -/
inductive LogLevel where
  | info
  | warning
  | error
deriving DecidableEq, Repr

/-- Round to the nearest integer, ties to even: the semantics of Python's
built-in `round` and of `np.round` (banker's rounding). -/
def roundHalfEven (q : ℚ) : ℤ :=
  let f := ⌊q⌋
  let r := q - (f : ℚ)
  if r < 1/2 then f
  else if 1/2 < r then f + 1
  else if f % 2 = 0 then f else f + 1

/-- `round(q, n)` in Python: round to `n` decimal places, ties to even. -/
def roundTo (n : ℕ) (q : ℚ) : ℚ :=
  (roundHalfEven (q * (10 : ℚ) ^ n) : ℚ) / (10 : ℚ) ^ n

/-- `round(sqrt v, n)` for `v ≥ 0`: the half-even rounding of the (generally
irrational) square root of `v` to `n` decimal places, computed exactly on
rationals.  Models `round(np.std(...), n)`, the only place the source takes a
square root. -/
def roundSqrtTo (n : ℕ) (v : ℚ) : ℚ :=
  let scale : ℕ := 10 ^ n
  let t : ℚ := ((scale : ℚ)) ^ 2 * v
  let f : ℕ := Nat.sqrt ⌊t⌋.toNat
  let k : ℕ :=
    if 4 * t < (((2 * f + 1 : ℕ) : ℚ)) ^ 2 then f
    else if (((2 * f + 1 : ℕ) : ℚ)) ^ 2 < 4 * t then f + 1
    else if f % 2 = 0 then f else f + 1
  (k : ℚ) / (scale : ℚ)

/-- A calendar date, day precision (the result of a successful
`datetime.strptime(s, '%Y-%m-%d')`). -/
structure Date where
  year : ℕ
  month : ℕ
  day : ℕ
deriving DecidableEq, Repr

/-- Split a character list on `'-'`, like `str.split('-')` restricted to the
single-character separator (same group semantics as `String.splitOn "-"`). -/
def splitOnDash : List Char → List (List Char)
  | [] => [[]]
  | c :: rest =>
    let r := splitOnDash rest
    if c = '-' then [] :: r
    else
      match r with
      | [] => [[c]]
      | g :: gs => (c :: g) :: gs

/-- Numeric value of a digit string. -/
def digitsVal (cs : List Char) : ℕ :=
  cs.foldl (fun n c => 10 * n + (c.toNat - '0'.toNat)) 0

/-- Gregorian leap-year rule used by `datetime`. -/
def isLeapYear (y : ℕ) : Bool :=
  y % 4 = 0 && (y % 100 ≠ 0 || y % 400 = 0)

/-- Number of days of month `m` in year `y`, as validated by `datetime`. -/
def daysInMonth (y m : ℕ) : ℕ :=
  if m = 2 then (if isLeapYear y then 29 else 28)
  else if m = 4 ∨ m = 6 ∨ m = 9 ∨ m = 11 then 30
  else 31

/-- `datetime.strptime(s, '%Y-%m-%d')`: `%Y` is exactly four digits, `%m` and
`%d` one or two digits; the month must lie in `1..12` and the day must be a
valid day of that month; anything else raises `ValueError`, modelled as
`none`. -/
def parseDate (s : String) : Option Date :=
  match splitOnDash s.toList with
  | [ycs, mcs, dcs] =>
    if ycs.length = 4 ∧ ycs.all Char.isDigit
        ∧ 1 ≤ mcs.length ∧ mcs.length ≤ 2 ∧ mcs.all Char.isDigit
        ∧ 1 ≤ dcs.length ∧ dcs.length ≤ 2 ∧ dcs.all Char.isDigit then
      let y := digitsVal ycs
      let m := digitsVal mcs
      let d := digitsVal dcs
      if 1 ≤ m ∧ m ≤ 12 ∧ 1 ≤ d ∧ d ≤ daysInMonth y m then some ⟨y, m, d⟩
      else none
    else none
  | _ => none

/-- Zero-pad the decimal representation of `n` to width `w`. -/
def padNum (w n : ℕ) : String :=
  let s := toString n
  if s.length < w then String.mk (List.replicate (w - s.length) '0') ++ s else s

/-- `d.strftime('%Y-%m-%d')`. -/
def formatDate (d : Date) : String :=
  padNum 4 d.year ++ "-" ++ padNum 2 d.month ++ "-" ++ padNum 2 d.day

/-- `np.max` on a nonempty list (0 on the empty list, which the source never
reaches). -/
def listMax : List ℚ → ℚ
  | [] => 0
  | y :: ys => ys.foldl max y

/-- `np.min` on a nonempty list (0 on the empty list). -/
def listMin : List ℚ → ℚ
  | [] => 0
  | y :: ys => ys.foldl min y

/-- `np.argmax`: the index of the first occurrence of the maximum (0 on the
empty list, which the source never reaches). -/
def argmaxIdx : List ℚ → ℕ
  | [] => 0
  | y :: ys => if listMax (y :: ys) ≤ y then 0 else argmaxIdx ys + 1

/-- Slope of `np.polyfit(np.arange(len ys), ys, 1)`: the first-degree
least-squares fit of the values against the observation index `0,1,2,...`,
written in its exact normal-equation form. -/
def leastSquaresSlope (ys : List ℚ) : ℚ :=
  let n : ℚ := (ys.length : ℚ)
  let xs : List ℚ := (List.range ys.length).map (fun i => (i : ℚ))
  let sx := xs.sum
  let sy := ys.sum
  let sxy := ((xs.zip ys).map (fun pr => pr.1 * pr.2)).sum
  let sxx := (xs.map (fun x => x * x)).sum
  (n * sxy - sx * sy) / (n * sxx - sx * sx)

/-- Trend classification applied to the (unrounded) least-squares slope
(`openet_service.py` lines 330-335). -/
def classifyTrend (slope : ℚ) : String :=
  if |slope| < 0.1 then "stable"
  else if 0 < slope then "increasing"
  else "decreasing"

/-- Water-use classification ladder on `mean_monthly_et_mm`
(`openet_service.py` lines 352-363): class together with its fixed
description string. -/
def classifyWaterUse (m : ℚ) : String × String :=
  if m < 30 then ("low_water_use", "Low water consumption")
  else if m < 50 then ("moderate_water_use", "Moderate water consumption")
  else if m < 70 then ("high_water_use", "High water consumption")
  else ("very_high_water_use", "Significantly high water consumption")

/-- Vegetation-vigor classification ladder on `mean_ndvi`
(`openet_service.py` lines 415-424). -/
def classifyVigor (m : ℚ) : String :=
  if m < 0.2 then "Sparse or no vegetation"
  else if m < 0.4 then "Low vegetation"
  else if m < 0.6 then "Moderate vegetation"
  else if m < 0.8 then "Healthy vegetation"
  else "Very healthy/dense vegetation"

/-- Seasonal bucket of a calendar month (`openet_service.py` lines 311-320):
the `if month in [12,1,2] ... else fall` chain of the seasonal-totals loop. -/
def seasonOfMonth (m : ℕ) : String :=
  if m = 12 ∨ m = 1 ∨ m = 2 then "winter"
  else if m = 3 ∨ m = 4 ∨ m = 5 then "spring"
  else if m = 6 ∨ m = 7 ∨ m = 8 then "summer"
  else "fall"

/-- `mm_to_inches = 0.0393701`. -/
def mmToInches : ℚ := 0.0393701

/-- One record of the raw provider time series: the optional `'time'` field
and the optional (possibly null) value field named after the variable. -/
structure RawRecord where
  time : Option String
  value : Option ℚ
deriving DecidableEq, Repr

/-- One entry of the extractor's `data_points`: the dict
`{'date': date, VARIABLE.upper(): value}`. -/
structure DataPoint where
  date : String
  value : ℚ
deriving DecidableEq, Repr

/-- The dictionary returned by `_extract_variable_data` (the fixed
`source`/`location` fields are omitted; the variable-named mean key
`'et_mean'`/`'ndvi_mean'` is the field `mean`). -/
structure ExtractedSeries where
  values_found : ℕ
  date_range : String
  mean : ℚ
  data_points : List DataPoint
deriving DecidableEq, Repr

/-- The raw input of `_extract_variable_data`: either a list of records, or
any non-list payload (e.g. a provider error object). -/
inductive RawInput where
  | list (items : List RawRecord)
  | notList
deriving DecidableEq, Repr

/-- The extraction loop of `_extract_variable_data` (lines 197-207): a record
contributes iff its `'time'` field is truthy (present and nonempty) and its
value field is present and not `None`; it is appended to both `data_points`
and `values`. -/
def extractLoop : List RawRecord → List DataPoint × List ℚ
  | [] => ([], [])
  | it :: rest =>
    match it.time, it.value with
    | some d, some v =>
      if d = "" then extractLoop rest
      else (⟨d, v⟩ :: (extractLoop rest).1, v :: (extractLoop rest).2)
    | _, _ => extractLoop rest

/-- `OpenETDataProcessor._extract_variable_data` (lines 178-247), paired with
the levels of the log messages it emits.  On a non-list input it logs an
error and returns the zero-observation series.  The list
`valid_values = [v for v in values if v is not None]` equals `values`, since
only non-null values are ever appended. -/
def extractVariableData : RawInput → ExtractedSeries × List LogLevel
  | RawInput.notList =>
    ({ values_found := 0, date_range := "N/A", mean := 0, data_points := [] },
     [LogLevel.error])
  | RawInput.list items =>
    let data_points := (extractLoop items).1
    let valid_values := (extractLoop items).2
    let logs := if data_points = [] then [LogLevel.warning] else []
    let date_range :=
      match data_points.head?, data_points.getLast? with
      | some a, some b => a.date ++ " to " ++ b.date
      | _, _ => "N/A"
    let mean :=
      if valid_values = [] then 0
      else roundTo 3 (valid_values.sum / (valid_values.length : ℚ))
    ({ values_found := valid_values.length, date_range := date_range,
       mean := mean, data_points := data_points }, logs)

/-- One entry of the `data_points` list consumed by `_analyze_et_data`: the
`'date'` string plus the `'ET'` field, which may be absent or `None`
(both modelled by `none`). -/
structure AnalyzePoint where
  date : String
  et : Option ℚ
deriving DecidableEq, Repr

/-- The dictionary built by `_analyze_et_data` (lines 365-390).  The
`date_range` sub-dict is flattened into `date_range_start`/`date_range_end`
and `seasonal_totals_mm`/`et_variability` into individual fields. -/
structure ETAnalysis where
  total_et_mm : ℤ
  mean_monthly_et_mm : ℚ
  max_monthly_et_mm : ℤ
  min_monthly_et_mm : ℤ
  peak_et_month : String
  total_et_inches : ℚ
  growing_season_et_mm : ℤ
  growing_season_et_inches : ℚ
  observations : ℕ
  date_range_start : String
  date_range_end : String
  yearly_totals_mm : List (ℕ × ℚ)
  seasonal_winter : ℚ
  seasonal_spring : ℚ
  seasonal_summer : ℚ
  seasonal_fall : ℚ
  monthly_trend : String
  trend_slope_mm_per_month : ℚ
  std_dev_mm : ℚ
  coefficient_of_variation : ℚ
  consistency : String
  water_use_classification : String
  water_use_description : String
deriving DecidableEq, Repr

/-- Outcome of a call to `_analyze_et_data`: the empty dict `{}`, a full
analysis, or an uncaught exception (`IndexError` on `dates[...]` when the
parallel lists `et_values`/`dates` have drifted apart). -/
inductive AnalyzeResult where
  | empty
  | ok (a : ETAnalysis)
  | err
deriving DecidableEq, Repr

/-- The analysis carried by an `ok` outcome, if any. -/
def AnalyzeResult.getOk : AnalyzeResult → Option ETAnalysis
  | .ok a => some a
  | _ => none

/-- The collection loop of `_analyze_et_data` (lines 256-266): for each point
carrying a non-null `'ET'` value, the value is appended to `et_values`
FIRST, and only then is the date parsed; on a `ValueError` a warning is
logged and the date is dropped, but the already-appended value stays.
Returns `(et_values, dates, log levels)`. -/
def collectET : List AnalyzePoint → List ℚ × List Date × List LogLevel
  | [] => ([], [], [])
  | p :: rest =>
    match p.et with
    | none => collectET rest
    | some v =>
      match parseDate p.date with
      | some d =>
        (v :: (collectET rest).1, d :: (collectET rest).2.1, (collectET rest).2.2)
      | none =>
        (v :: (collectET rest).1, (collectET rest).2.1,
         LogLevel.warning :: (collectET rest).2.2)

/-- The statistics body of `_analyze_et_data` (lines 271-390), computed from
the collected `et_values` and `dates` together with the three successfully
indexed dates `dates[max_idx]`, `dates[0]`, `dates[-1]`. -/
def buildAnalysis (et_values : List ℚ) (dates : List Date)
    (peakD d0 dN : Date) : ETAnalysis :=
  let n : ℚ := (et_values.length : ℚ)
  let sumv := et_values.sum
  let mean_monthly := roundTo 1 (sumv / n)
  let pairs := dates.zip et_values
  let growing := (pairs.filter (fun pr => 4 ≤ pr.1.month ∧ pr.1.month ≤ 10)).map Prod.snd
  let growingTotal : ℚ := if growing = [] then 0 else roundTo 0 growing.sum
  let years := List.insertionSort (· ≤ ·) ((pairs.map (fun pr => pr.1.year)).dedup)
  let yearly := years.map (fun y =>
    (y, roundTo 0 (((pairs.filter (fun pr => pr.1.year = y)).map Prod.snd).sum)))
  let seasonTotal := fun (s : String) =>
    roundTo 0 (((pairs.filter (fun pr => seasonOfMonth pr.1.month = s)).map Prod.snd).sum)
  let slope := leastSquaresSlope et_values
  let trendPair : String × ℚ :=
    if 1 < et_values.length then (classifyTrend slope, roundTo 3 slope)
    else ("stable", 0)
  let mu := sumv / n
  let variance := (et_values.map (fun v => (v - mu) ^ 2)).sum / n
  let std_dev := roundSqrtTo 1 variance
  let cv := if 0 < mean_monthly then roundTo 2 (std_dev / mean_monthly) else 0
  let water := classifyWaterUse mean_monthly
  { total_et_mm := roundHalfEven sumv
    mean_monthly_et_mm := mean_monthly
    max_monthly_et_mm := roundHalfEven (listMax et_values)
    min_monthly_et_mm := roundHalfEven (listMin et_values)
    peak_et_month := formatDate peakD
    total_et_inches := roundTo 2 (roundTo 0 sumv * mmToInches)
    growing_season_et_mm := if growing = [] then 0 else roundHalfEven growing.sum
    growing_season_et_inches := roundTo 2 (growingTotal * mmToInches)
    observations := et_values.length
    date_range_start := formatDate d0
    date_range_end := formatDate dN
    yearly_totals_mm := yearly
    seasonal_winter := seasonTotal "winter"
    seasonal_spring := seasonTotal "spring"
    seasonal_summer := seasonTotal "summer"
    seasonal_fall := seasonTotal "fall"
    monthly_trend := trendPair.1
    trend_slope_mm_per_month := trendPair.2
    std_dev_mm := std_dev
    coefficient_of_variation := cv
    consistency :=
      if cv < 0.3 then "high" else if cv < 0.6 then "moderate" else "low"
    water_use_classification := water.1
    water_use_description := water.2 }

/-- `OpenETDataProcessor._analyze_et_data` (lines 249-390), paired with the
levels of the log messages it emits.  The three `dates[...]` accesses are
modelled by option-valued lookups; any out-of-range access yields `err`
(Python: an uncaught `IndexError`). -/
def analyzeETData (dps : List AnalyzePoint) : AnalyzeResult × List LogLevel :=
  if dps = [] then (AnalyzeResult.empty, [])
  else if (collectET dps).1 = [] then (AnalyzeResult.empty, (collectET dps).2.2)
  else
    match (collectET dps).2.1.get? (argmaxIdx (collectET dps).1),
        (collectET dps).2.1.head?, (collectET dps).2.1.getLast? with
    | some peakD, some d0, some dN =>
      (AnalyzeResult.ok (buildAnalysis (collectET dps).1 (collectET dps).2.1 peakD d0 dN),
       (collectET dps).2.2)
    | _, _, _ => (AnalyzeResult.err, (collectET dps).2.2)

/-- One entry of the `data_points` list consumed by
`_generate_vegetation_summary`: the `'NDVI'` field may be absent or `None`. -/
structure VegPoint where
  date : String
  ndvi : Option ℚ
deriving DecidableEq, Repr

/-- The dictionary built by `_generate_vegetation_summary` (lines 426-434). -/
structure VegetationSummary where
  total_observations : ℕ
  mean_ndvi : ℚ
  max_ndvi : ℚ
  min_ndvi : ℚ
  std_dev : ℚ
  vigor_classification : String
  data_sources : List String
deriving DecidableEq, Repr

/-- `OpenETDataProcessor._generate_vegetation_summary` (lines 392-434);
`none` is the empty dict `{}`.  The function emits no log messages and has
no failing operations. -/
def generateVegetationSummary (dps : List VegPoint) : Option VegetationSummary :=
  if dps = [] then none
  else
    let vals := dps.filterMap (fun p => p.ndvi)
    if vals = [] then none
    else
      let n : ℚ := (vals.length : ℚ)
      let mean := roundTo 3 (vals.sum / n)
      let mu := vals.sum / n
      let variance := (vals.map (fun v => (v - mu) ^ 2)).sum / n
      some { total_observations := vals.length
             mean_ndvi := mean
             max_ndvi := roundTo 3 (listMax vals)
             min_ndvi := roundTo 3 (listMin vals)
             std_dev := roundSqrtTo 3 variance
             vigor_classification := classifyVigor mean
             data_sources := ["OpenET"] }

/-- The observations actually carrying an ET value, in input order: the
`(date string, value)` pairs over which `_analyze_et_data` iterates.  This is
the specification-side description of the analyzer's input stream, used to
state the claims. -/
def etObservations (dps : List AnalyzePoint) : List (String × ℚ) :=
  dps.filterMap (fun p => p.et.map (fun v => (p.date, v)))

/-! ## Helper lemmas -/

lemma etObservations_nil : etObservations [] = [] := rfl

lemma etObservations_cons_none (p : AnalyzePoint) (rest : List AnalyzePoint)
    (hp : p.et = none) : etObservations (p :: rest) = etObservations rest := by
  simp [etObservations, List.filterMap_cons, hp]

lemma etObservations_cons_some (p : AnalyzePoint) (rest : List AnalyzePoint)
    (v : ℚ) (hp : p.et = some v) :
    etObservations (p :: rest) = (p.date, v) :: etObservations rest := by
  simp [etObservations, List.filterMap_cons, hp]

/-- The `et_values` list collected by `_analyze_et_data` is exactly the
values of the ET-carrying observations, in input order — regardless of
whether their dates parse. -/
lemma collectET_fst (dps : List AnalyzePoint) :
    (collectET dps).1 = (etObservations dps).map Prod.snd := by
  induction dps with
  | nil => rfl
  | cons p rest ih =>
    cases hp : p.et with
    | none => simp [collectET, hp, etObservations_cons_none p rest hp, ih]
    | some v =>
      cases hpd : parseDate p.date <;>
        simp [collectET, hp, hpd, etObservations_cons_some p rest v hp, ih]

/-- When every ET-carrying observation has a parseable date, the collected
`dates` list is the element-wise parse of the observation dates. -/
lemma collectET_dates (dps : List AnalyzePoint)
    (h : ∀ pr ∈ etObservations dps, (parseDate pr.1).isSome) :
    List.Forall₂ (fun (pr : String × ℚ) (d : Date) => parseDate pr.1 = some d)
      (etObservations dps) (collectET dps).2.1 := by
  induction dps with
  | nil => exact List.Forall₂.nil
  | cons p rest ih =>
    cases hp : p.et with
    | none =>
      rw [etObservations_cons_none p rest hp] at h ⊢
      simpa [collectET, hp] using ih h
    | some v =>
      rw [etObservations_cons_some p rest v hp] at h ⊢
      have hps : (parseDate p.date).isSome := h _ (List.mem_cons_self _ _)
      cases hpd : parseDate p.date with
      | none => rw [hpd] at hps; simp at hps
      | some d =>
        simp only [collectET, hp, hpd]
        exact List.Forall₂.cons hpd (ih (fun pr hpr => h pr (List.mem_cons_of_mem _ hpr)))

lemma forall2_get_rel {α β : Type _} {R : α → β → Prop} :
    ∀ {l1 : List α} {l2 : List β}, List.Forall₂ R l1 l2 →
      ∀ (i : ℕ) (h1 : i < l1.length) (h2 : i < l2.length),
        R (l1.get ⟨i, h1⟩) (l2.get ⟨i, h2⟩) := by
  intro l1 l2 h
  induction h with
  | nil => intro i h1 _; exact absurd h1 (by simp)
  | cons hR _ ih =>
    intro i h1 h2
    cases i with
    | zero => exact hR
    | succ n => exact ih n (by simpa using h1) (by simpa using h2)

lemma foldl_max_le_init (ys : List ℚ) : ∀ a : ℚ, a ≤ ys.foldl max a := by
  induction ys with
  | nil => intro a; simp
  | cons y ys ih =>
    intro a
    exact le_trans (le_max_left a y) (ih (max a y))

lemma le_foldl_max_of_mem (ys : List ℚ) : ∀ (a v : ℚ), v ∈ ys → v ≤ ys.foldl max a := by
  induction ys with
  | nil => intro a v hv; cases hv
  | cons y ys ih =>
    intro a v hv
    rcases List.mem_cons.mp hv with h | h
    · subst h
      exact le_trans (le_max_right a v) (foldl_max_le_init ys (max a v))
    · exact ih (max a y) v h

lemma foldl_max_comm (ys : List ℚ) : ∀ a b : ℚ, ys.foldl max (max a b) = max a (ys.foldl max b) := by
  induction ys with
  | nil => intro a b; rfl
  | cons y ys ih =>
    intro a b
    rw [List.foldl_cons, List.foldl_cons, max_assoc, ih]

lemma listMax_singleton (y : ℚ) : listMax [y] = y := rfl

lemma listMax_cons (y : ℚ) (ys : List ℚ) (h : ys ≠ []) :
    listMax (y :: ys) = max y (listMax ys) := by
  cases ys with
  | nil => cases h rfl
  | cons c rest =>
    show (c :: rest).foldl max y = max y (listMax (c :: rest))
    rw [List.foldl_cons, foldl_max_comm]
    rfl

lemma le_listMax (ys : List ℚ) (v : ℚ) (hv : v ∈ ys) : v ≤ listMax ys := by
  cases ys with
  | nil => cases hv
  | cons y ys =>
    rcases List.mem_cons.mp hv with h | h
    · subst h; exact foldl_max_le_init ys v
    · exact le_foldl_max_of_mem ys y v h

lemma argmaxIdx_lt (ys : List ℚ) (h : ys ≠ []) : argmaxIdx ys < ys.length := by
  induction ys with
  | nil => cases h rfl
  | cons y ys ih =>
    by_cases hc : listMax (y :: ys) ≤ y
    · simp [argmaxIdx, hc]
    · have hys : ys ≠ [] := by
        rintro rfl
        exact hc (le_of_eq (listMax_singleton y))
      simp only [argmaxIdx, hc, if_false, List.length_cons]
      exact Nat.succ_lt_succ (ih hys)

lemma listMax_cons_of_not_le (y : ℚ) (ys : List ℚ) (hc : ¬ listMax (y :: ys) ≤ y) :
    ys ≠ [] ∧ listMax (y :: ys) = listMax ys ∧ y < listMax ys := by
  have hys : ys ≠ [] := by
    rintro rfl
    exact hc (le_of_eq (listMax_singleton y))
  have hm : listMax (y :: ys) = max y (listMax ys) := listMax_cons y ys hys
  have hlt : y < listMax ys := by
    by_contra hle
    push_neg at hle
    exact hc (le_of_eq (by rw [hm, max_eq_left hle]))
  exact ⟨hys, by rw [hm, max_eq_right (le_of_lt hlt)], hlt⟩

lemma argmaxIdx_get (ys : List ℚ) (h : ys ≠ []) :
    ys.get ⟨argmaxIdx ys, argmaxIdx_lt ys h⟩ = listMax ys := by
  induction ys with
  | nil => cases h rfl
  | cons y ys ih =>
    by_cases hc : listMax (y :: ys) ≤ y
    · have h0 : argmaxIdx (y :: ys) = 0 := by simp [argmaxIdx, hc]
      have hy : y ≤ listMax (y :: ys) := le_listMax _ y (List.mem_cons_self _ _)
      have : (y :: ys).get ⟨argmaxIdx (y :: ys), argmaxIdx_lt (y :: ys) h⟩ =
          (y :: ys).get ⟨0, by simp⟩ := by
        congr 1
        exact Fin.ext h0
      rw [this]
      exact le_antisymm hy hc
    · obtain ⟨hys, hm, _⟩ := listMax_cons_of_not_le y ys hc
      have hsucc : argmaxIdx (y :: ys) = argmaxIdx ys + 1 := by simp [argmaxIdx, hc]
      have hlt' : argmaxIdx ys < ys.length := argmaxIdx_lt ys hys
      have : (y :: ys).get ⟨argmaxIdx (y :: ys), argmaxIdx_lt (y :: ys) h⟩ =
          ys.get ⟨argmaxIdx ys, hlt'⟩ := by
        have : (⟨argmaxIdx (y :: ys), argmaxIdx_lt (y :: ys) h⟩ :
            Fin (y :: ys).length) = ⟨argmaxIdx ys + 1, Nat.succ_lt_succ hlt'⟩ :=
          Fin.ext hsucc
        rw [this]
        rfl
      rw [this, ih hys, hm]

lemma argmaxIdx_first (ys : List ℚ) :
    ∀ j, j < argmaxIdx ys → ∀ (hlen : j < ys.length),
      ys.get ⟨j, hlen⟩ < listMax ys := by
  induction ys with
  | nil => intro j hj hlen; exact absurd hlen (by simp)
  | cons y ys ih =>
    intro j hj hlen
    by_cases hc : listMax (y :: ys) ≤ y
    · rw [show argmaxIdx (y :: ys) = 0 from by simp [argmaxIdx, hc]] at hj
      exact absurd hj (Nat.not_lt_zero j)
    · obtain ⟨hys, hm, hylt⟩ := listMax_cons_of_not_le y ys hc
      rw [show argmaxIdx (y :: ys) = argmaxIdx ys + 1 from by simp [argmaxIdx, hc]] at hj
      cases j with
      | zero =>
        show y < listMax (y :: ys)
        rw [hm]; exact hylt
      | succ n =>
        have hn : n < argmaxIdx ys := Nat.lt_of_succ_lt_succ hj
        have hlen' : n < ys.length := Nat.lt_of_succ_lt_succ hlen
        have : (y :: ys).get ⟨n + 1, hlen⟩ = ys.get ⟨n, hlen'⟩ := rfl
        rw [this, hm]
        exact ih n hn hlen'

lemma collectET_all_none (dps : List AnalyzePoint) (h : ∀ p ∈ dps, p.et = none) :
    collectET dps = ([], [], []) := by
  induction dps with
  | nil => rfl
  | cons p rest ih =>
    have hp : p.et = none := h p (List.mem_cons_self _ _)
    simp only [collectET, hp]
    exact ih (fun q hq => h q (List.mem_cons_of_mem _ hq))

/-- Master lemma: when at least one observation carries an ET value and every
such observation's date parses, `_analyze_et_data` completes normally and
returns the statistics body applied to the collected values and dates. -/
lemma analyzeETData_ok (dps : List AnalyzePoint)
    (h1 : etObservations dps ≠ [])
    (h2 : ∀ pr ∈ etObservations dps, (parseDate pr.1).isSome) :
    ∃ pd d0 dN,
      (collectET dps).2.1.get? (argmaxIdx (collectET dps).1) = some pd ∧
      (collectET dps).2.1.head? = some d0 ∧
      (collectET dps).2.1.getLast? = some dN ∧
      (analyzeETData dps).1 =
        AnalyzeResult.ok (buildAnalysis (collectET dps).1 (collectET dps).2.1 pd d0 dN) := by
  have hF := collectET_dates dps h2
  have hlen : (etObservations dps).length = (collectET dps).2.1.length :=
    List.Forall₂.length_eq hF
  have hvals : (collectET dps).1 = (etObservations dps).map Prod.snd := collectET_fst dps
  have hvne : (collectET dps).1 ≠ [] := by
    rw [hvals]
    simpa using h1
  have hvlen : (collectET dps).1.length = (etObservations dps).length := by
    rw [hvals]; simp
  have hargl : argmaxIdx (collectET dps).1 < (collectET dps).2.1.length := by
    rw [← hlen, ← hvlen]
    exact argmaxIdx_lt _ hvne
  have hdne : (collectET dps).2.1 ≠ [] := by
    intro h0
    rw [h0] at hargl
    exact absurd hargl (by simp)
  have hget : (collectET dps).2.1.get? (argmaxIdx (collectET dps).1) =
      some ((collectET dps).2.1.get ⟨argmaxIdx (collectET dps).1, hargl⟩) :=
    List.get?_eq_get hargl
  obtain ⟨d0, hd0⟩ : ∃ d0, (collectET dps).2.1.head? = some d0 := by
    cases hcd : (collectET dps).2.1 with
    | nil => exact absurd hcd hdne
    | cons a l => exact ⟨a, rfl⟩
  obtain ⟨dN, hdN⟩ : ∃ dN, (collectET dps).2.1.getLast? = some dN := by
    have : (collectET dps).2.1.getLast?.isSome := by
      rw [List.getLast?_isSome]
      exact hdne
    exact Option.isSome_iff_exists.mp this
  have hdpsne : dps ≠ [] := by
    rintro rfl
    exact h1 rfl
  refine ⟨_, d0, dN, hget, hd0, hdN, ?_⟩
  unfold analyzeETData
  rw [if_neg hdpsne, if_neg hvne, hget, hd0, hdN]


/-! ## Claim theorems -/

/-- Claim C1, behavior of the code at a failing input.  The claim says a
record whose date string fails to parse is skipped entirely, its ET value is
excluded from all statistics, the analysis never raises, and `observations`
counts only the post-filtering values.  The code appends the ET value to
`et_values` BEFORE attempting the date parse, so the value of the bad-date
record stays in every statistic: for `[('bad-date',10), ('2021-01-01',3)]`
the analyzer reports `observations = 2` and `total_et_mm = 13` (the claim
demands 1 and 3), and for the single record `('bad-date',5)` the misaligned
`dates` list is empty and `dates[max_idx]` raises an uncaught `IndexError`
(the `err` outcome) after logging the warning. -/
theorem claim_C1_bad_date_value_not_excluded :
    ((analyzeETData [⟨"bad-date", some 10⟩, ⟨"2021-01-01", some 3⟩]).1.getOk.map
      (fun a => (a.observations, a.total_et_mm))) = some (2, 13) ∧
    (analyzeETData [⟨"bad-date", some 10⟩, ⟨"2021-01-01", some 3⟩]).2 =
      [LogLevel.warning] ∧
    analyzeETData [⟨"bad-date", some 5⟩] = (AnalyzeResult.err, [LogLevel.warning]) := by
  with_unfolding_all decide

/-- Claim C4: the reference ET scenario
`[(2021-01,20),(2021-04,40),(2021-07,80),(2021-10,40)]` yields
`total_et_mm = 180`, `growing_season_et_mm = 160` (April, July, October in;
January out) and seasonal totals `winter 20, spring 40, summer 80, fall 40`;
and a December observation is assigned the `winter` bucket by the seasonal
if-chain, never `fall`. -/
theorem claim_C4_reference_scenario :
    ((analyzeETData
        [⟨"2021-01-01", some 20⟩, ⟨"2021-04-01", some 40⟩,
         ⟨"2021-07-01", some 80⟩, ⟨"2021-10-01", some 40⟩]).1.getOk.map
      (fun a => (a.total_et_mm, a.growing_season_et_mm, a.seasonal_winter,
        a.seasonal_spring, a.seasonal_summer, a.seasonal_fall))) =
      some (180, 160, 20, 40, 80, 40) ∧
    seasonOfMonth 12 = "winter" ∧ seasonOfMonth 12 ≠ "fall" := by
  with_unfolding_all decide

/-- Claim C9, counterexample.  The claim says the extractor "logs a warning"
on a non-list raw input; the code's non-list branch calls `logger.error`, so
the emitted log is at error level and no warning-level message is logged. -/
theorem claim_C9_counterexample_error_not_warning :
    (extractVariableData RawInput.notList).2 = [LogLevel.error] ∧
    LogLevel.warning ∉ (extractVariableData RawInput.notList).2 := by
  with_unfolding_all decide

/-- Claim C9 as amended: on a non-list raw input the extractor fails soft —
it returns an `ExtractedSeries` with zero observations, `values_found = 0`,
`date_range = "N/A"` (and mean 0), logs an ERROR-level message, and does not
raise. -/
theorem claim_C9_amended_not_list_fails_soft :
    extractVariableData RawInput.notList =
      ({ values_found := 0, date_range := "N/A", mean := 0, data_points := [] },
       [LogLevel.error]) := by
  with_unfolding_all decide

/-- Claim C2: when no observation carries an ET value (in particular on the
empty input) the ET analyzer returns the empty structure and logs nothing,
and likewise the vegetation summarizer returns the empty structure; neither
raises. -/
theorem claim_C2_empty_input_empty_structure (dps : List AnalyzePoint)
    (vps : List VegPoint)
    (h1 : ∀ p ∈ dps, p.et = none) (h2 : ∀ q ∈ vps, q.ndvi = none) :
    analyzeETData dps = (AnalyzeResult.empty, []) ∧
    generateVegetationSummary vps = none := by
  constructor
  · by_cases hdps : dps = []
    · subst hdps
      rfl
    · have hcol : collectET dps = ([], [], []) := collectET_all_none dps h1
      unfold analyzeETData
      rw [if_neg hdps, hcol]
      rfl
  · unfold generateVegetationSummary
    by_cases hv : vps = []
    · rw [if_pos hv]
    · rw [if_neg hv]
      have hnil : vps.filterMap (fun p => p.ndvi) = [] :=
        List.filterMap_eq_nil_iff.mpr (fun q hq => h2 q hq)
      simp [hnil]

/-- Witness for claim C2 at concrete inputs: a one-record ET input whose
record has a null ET value, and a one-record NDVI input with a null NDVI
value. -/
theorem claim_C2_witness :
    analyzeETData [⟨"2021-01-01", none⟩] = (AnalyzeResult.empty, []) ∧
    generateVegetationSummary [⟨"2021-03-01", none⟩] = none :=
  claim_C2_empty_input_empty_structure [⟨"2021-01-01", none⟩] [⟨"2021-03-01", none⟩]
    (by with_unfolding_all decide) (by with_unfolding_all decide)

/-- The extraction loop keeps exactly the records with a truthy `'time'` and
a non-null value, in input order, and collects one value per kept record. -/
lemma extractLoop_spec (items : List RawRecord) :
    (extractLoop items).1 = items.filterMap (fun it =>
      match it.time, it.value with
      | some d, some v => if d = "" then none else some ⟨d, v⟩
      | _, _ => none) ∧
    (extractLoop items).2.length = (extractLoop items).1.length := by
  induction items with
  | nil => exact ⟨rfl, rfl⟩
  | cons it rest ih =>
    cases ht : it.time with
    | none => simp [extractLoop, ht, List.filterMap_cons, ih.1, ih.2]
    | some d =>
      cases hv : it.value with
      | none => simp [extractLoop, ht, hv, List.filterMap_cons, ih.1, ih.2]
      | some v =>
        by_cases hd : d = "" <;>
          simp [extractLoop, ht, hv, hd, List.filterMap_cons, ih.1, ih.2]

/-- Claim C10: on every list-shaped raw input, `values_found` equals the
length of `data_points` (each retained observation carries a non-null value,
so the two counts cannot diverge), and `data_points` is exactly the
subsequence, in original input order, of the records whose `'time'` field is
truthy and whose value field is not `None`.  Concretely, a present-but-empty
date string is dropped and a value of `0` is retained. -/
theorem claim_C10_extractor_invariants :
    (∀ items : List RawRecord,
      (extractVariableData (RawInput.list items)).1.values_found =
        (extractVariableData (RawInput.list items)).1.data_points.length ∧
      (extractVariableData (RawInput.list items)).1.data_points =
        items.filterMap (fun it =>
          match it.time, it.value with
          | some d, some v => if d = "" then none else some ⟨d, v⟩
          | _, _ => none)) ∧
    (extractVariableData (RawInput.list [⟨some "", some 5⟩])).1.data_points = [] ∧
    (extractVariableData (RawInput.list [⟨some "2021-01-01", some 0⟩])).1.data_points =
      [⟨"2021-01-01", 0⟩] := by
  refine ⟨fun items => ?_, by with_unfolding_all decide, by with_unfolding_all decide⟩
  have hs := extractLoop_spec items
  constructor
  · show (extractLoop items).2.length = (extractLoop items).1.length
    exact hs.2
  · show (extractLoop items).1 = _
    exact hs.1

/-- Claim C5: `water_use_classification` is determined by strict thresholds
on `mean_monthly_et_mm` (`<30` low, `<50` moderate, `<70` high, else very
high), each paired with its fixed description string; boundary means
`29.9, 30, 49.9, 50, 69.9, 70` classify as low, moderate, moderate, high,
high, very high; and on every analyzer run that produces a report, the pair
`(water_use_classification, water_use_description)` is exactly the ladder
applied to the reported `mean_monthly_et_mm`. -/
theorem claim_C5_water_use_thresholds :
    (∀ q : ℚ,
      (q < 30 → classifyWaterUse q = ("low_water_use", "Low water consumption")) ∧
      (¬ q < 30 → q < 50 →
        classifyWaterUse q = ("moderate_water_use", "Moderate water consumption")) ∧
      (¬ q < 50 → q < 70 →
        classifyWaterUse q = ("high_water_use", "High water consumption")) ∧
      (¬ q < 70 →
        classifyWaterUse q = ("very_high_water_use", "Significantly high water consumption"))) ∧
    ((classifyWaterUse 29.9).1 = "low_water_use" ∧
     (classifyWaterUse 30).1 = "moderate_water_use" ∧
     (classifyWaterUse 49.9).1 = "moderate_water_use" ∧
     (classifyWaterUse 50).1 = "high_water_use" ∧
     (classifyWaterUse 69.9).1 = "high_water_use" ∧
     (classifyWaterUse 70).1 = "very_high_water_use") ∧
    (∀ dps : List AnalyzePoint, etObservations dps ≠ [] →
      (∀ pr ∈ etObservations dps, (parseDate pr.1).isSome) →
      ∃ a, (analyzeETData dps).1 = AnalyzeResult.ok a ∧
        (a.water_use_classification, a.water_use_description) =
          classifyWaterUse a.mean_monthly_et_mm) := by
  refine ⟨?_, by with_unfolding_all decide, ?_⟩
  · intro q
    refine ⟨fun h1 => ?_, fun h1 h2 => ?_, fun h2 h3 => ?_, fun h3 => ?_⟩
    · simp [classifyWaterUse, h1]
    · simp [classifyWaterUse, h1, h2]
    · have h1 : ¬ q < 30 := fun hc => h2 (lt_trans hc (by norm_num))
      simp [classifyWaterUse, h1, h2, h3]
    · have h2 : ¬ q < 50 := fun hc => h3 (lt_trans hc (by norm_num))
      have h1 : ¬ q < 30 := fun hc => h2 (lt_trans hc (by norm_num))
      simp [classifyWaterUse, h1, h2, h3]
  · intro dps h1 h2
    obtain ⟨pd, d0, dN, _, _, _, hok⟩ := analyzeETData_ok dps h1 h2
    exact ⟨_, hok, rfl⟩

/-- Witness for claim C5: the boundary value 29.9 classifies as low water
use, and the one-month series `[('2021-05-01', 10)]` produces a report whose
classification/description pair is the ladder applied to its mean. -/
theorem claim_C5_witness :
    classifyWaterUse 29.9 = ("low_water_use", "Low water consumption") ∧
    (∃ a, (analyzeETData [⟨"2021-05-01", some 10⟩]).1 = AnalyzeResult.ok a ∧
      (a.water_use_classification, a.water_use_description) =
        classifyWaterUse a.mean_monthly_et_mm) :=
  ⟨(claim_C5_water_use_thresholds.1 29.9).1 (by with_unfolding_all decide),
   claim_C5_water_use_thresholds.2.2 [⟨"2021-05-01", some 10⟩]
     (by with_unfolding_all decide) (by with_unfolding_all decide)⟩

/-- Claim C7: `vigor_classification` is determined by strict thresholds on
the 3-decimal-rounded `mean_ndvi` (`<0.2` sparse, `<0.4` low, `<0.6`
moderate, `<0.8` healthy, else very healthy); boundary means
`0.19, 0.2, 0.39, 0.4, 0.59, 0.6, 0.79, 0.8` classify as sparse, low, low,
moderate, moderate, healthy, healthy, very healthy; and on every summarizer
run that produces a report, `vigor_classification` is the ladder applied to
the reported `mean_ndvi`, which is the 3-decimal rounding of the mean. -/
theorem claim_C7_vigor_thresholds :
    (∀ q : ℚ,
      (q < 0.2 → classifyVigor q = "Sparse or no vegetation") ∧
      (¬ q < 0.2 → q < 0.4 → classifyVigor q = "Low vegetation") ∧
      (¬ q < 0.4 → q < 0.6 → classifyVigor q = "Moderate vegetation") ∧
      (¬ q < 0.6 → q < 0.8 → classifyVigor q = "Healthy vegetation") ∧
      (¬ q < 0.8 → classifyVigor q = "Very healthy/dense vegetation")) ∧
    (classifyVigor 0.19 = "Sparse or no vegetation" ∧
     classifyVigor 0.2 = "Low vegetation" ∧
     classifyVigor 0.39 = "Low vegetation" ∧
     classifyVigor 0.4 = "Moderate vegetation" ∧
     classifyVigor 0.59 = "Moderate vegetation" ∧
     classifyVigor 0.6 = "Healthy vegetation" ∧
     classifyVigor 0.79 = "Healthy vegetation" ∧
     classifyVigor 0.8 = "Very healthy/dense vegetation") ∧
    (∀ vps : List VegPoint, vps.filterMap (fun p => p.ndvi) ≠ [] →
      ∃ s, generateVegetationSummary vps = some s ∧
        s.vigor_classification = classifyVigor s.mean_ndvi ∧
        s.mean_ndvi = roundTo 3 ((vps.filterMap (fun p => p.ndvi)).sum /
          ((vps.filterMap (fun p => p.ndvi)).length : ℚ))) := by
  refine ⟨?_, by with_unfolding_all decide, ?_⟩
  · intro q
    refine ⟨fun h1 => ?_, fun h1 h2 => ?_, fun h2 h3 => ?_, fun h3 h4 => ?_,
      fun h4 => ?_⟩
    · simp [classifyVigor, h1]
    · simp [classifyVigor, h1, h2]
    · have h1 : ¬ q < 0.2 := fun hc => h2 (lt_trans hc (by norm_num))
      simp [classifyVigor, h1, h2, h3]
    · have h2 : ¬ q < 0.4 := fun hc => h3 (lt_trans hc (by norm_num))
      have h1 : ¬ q < 0.2 := fun hc => h2 (lt_trans hc (by norm_num))
      simp [classifyVigor, h1, h2, h3, h4]
    · have h3 : ¬ q < 0.6 := fun hc => h4 (lt_trans hc (by norm_num))
      have h2 : ¬ q < 0.4 := fun hc => h3 (lt_trans hc (by norm_num))
      have h1 : ¬ q < 0.2 := fun hc => h2 (lt_trans hc (by norm_num))
      simp [classifyVigor, h1, h2, h3, h4]
  · intro vps h
    have hne : vps ≠ [] := by rintro rfl; exact h rfl
    unfold generateVegetationSummary
    rw [if_neg hne]
    simp only [if_neg h]
    exact ⟨_, rfl, rfl, rfl⟩

/-- Witness for claim C7: the boundary value 0.19 classifies as sparse, and
the two-month NDVI series `[('2021-05-01',0.5), ('2021-06-01',0.7)]`
produces a report whose vigor is the ladder applied to its rounded mean. -/
theorem claim_C7_witness :
    classifyVigor 0.19 = "Sparse or no vegetation" ∧
    (∃ s, generateVegetationSummary
        [⟨"2021-05-01", some 0.5⟩, ⟨"2021-06-01", some 0.7⟩] = some s ∧
      s.vigor_classification = classifyVigor s.mean_ndvi ∧
      s.mean_ndvi = roundTo 3 (((0.5 : ℚ) + (0.7 + 0)) / 2)) :=
  ⟨(claim_C7_vigor_thresholds.1 0.19).1 (by with_unfolding_all decide),
   claim_C7_vigor_thresholds.2.2 [⟨"2021-05-01", some 0.5⟩, ⟨"2021-06-01", some 0.7⟩]
     (by with_unfolding_all decide)⟩

/-- Claim C8: `total_et_inches` is computed from the already-whole-unit
rounded total — it equals `round(round(sum, 0) * 0.0393701, 2)`, the
documented double rounding, and `total_et_mm` is exactly that rounded
whole-unit sum. -/
theorem claim_C8_total_et_inches_double_rounding :
    ∀ dps : List AnalyzePoint, etObservations dps ≠ [] →
      (∀ pr ∈ etObservations dps, (parseDate pr.1).isSome) →
      ∃ a, (analyzeETData dps).1 = AnalyzeResult.ok a ∧
        (a.total_et_mm : ℚ) = roundTo 0 (((etObservations dps).map Prod.snd).sum) ∧
        a.total_et_inches =
          roundTo 2 (roundTo 0 (((etObservations dps).map Prod.snd).sum) * mmToInches) := by
  intro dps h1 h2
  obtain ⟨pd, d0, dN, _, _, _, hok⟩ := analyzeETData_ok dps h1 h2
  refine ⟨_, hok, ?_, ?_⟩
  · show ((roundHalfEven ((collectET dps).1.sum) : ℤ) : ℚ) = _
    rw [collectET_fst, roundTo]
    norm_num
  · show roundTo 2 (roundTo 0 ((collectET dps).1.sum) * mmToInches) = _
    rw [collectET_fst]

/-- Witness for claim C8 at the one-month series `[('2021-06-01', 100.4)]`:
the rounded-total route yields 3.94 inches whereas converting the raw sum
would yield 3.95, so the theorem pins the actually-implemented (double
rounding) route. -/
theorem claim_C8_witness :
    (∃ a, (analyzeETData [⟨"2021-06-01", some 100.4⟩]).1 = AnalyzeResult.ok a ∧
      ((a.total_et_mm : ℚ) =
        roundTo 0 (((etObservations [⟨"2021-06-01", some 100.4⟩]).map Prod.snd).sum)) ∧
      a.total_et_inches =
        roundTo 2 (roundTo 0 (((etObservations [⟨"2021-06-01", some 100.4⟩]).map
          Prod.snd).sum) * mmToInches)) ∧
    roundTo 2 (roundTo 0 (100.4 : ℚ) * mmToInches) = 3.94 ∧
    roundTo 2 ((100.4 : ℚ) * mmToInches) = 3.95 :=
  ⟨claim_C8_total_et_inches_double_rounding [⟨"2021-06-01", some 100.4⟩]
     (by with_unfolding_all decide) (by with_unfolding_all decide),
   by with_unfolding_all decide, by with_unfolding_all decide⟩

/-- Claim C6: with at least 2 observations the reported slope is the
3-decimal rounding of the first-degree least-squares fit of ET value against
observation index (dates play no role), and the trend label is the
classification of that unrounded slope (`stable` iff `|slope| < 0.1`, else
by sign); slopes `-5, -0.05, 0, 0.05, 5` classify as decreasing, stable,
stable, stable, increasing; with a single observation the trend is `stable`
with slope `0`. -/
theorem claim_C6_trend_least_squares :
    (∀ dps : List AnalyzePoint, 2 ≤ (etObservations dps).length →
      (∀ pr ∈ etObservations dps, (parseDate pr.1).isSome) →
      ∃ a, (analyzeETData dps).1 = AnalyzeResult.ok a ∧
        a.trend_slope_mm_per_month =
          roundTo 3 (leastSquaresSlope ((etObservations dps).map Prod.snd)) ∧
        a.monthly_trend =
          classifyTrend (leastSquaresSlope ((etObservations dps).map Prod.snd))) ∧
    (∀ dps : List AnalyzePoint, (etObservations dps).length = 1 →
      (∀ pr ∈ etObservations dps, (parseDate pr.1).isSome) →
      ∃ a, (analyzeETData dps).1 = AnalyzeResult.ok a ∧
        a.monthly_trend = "stable" ∧ a.trend_slope_mm_per_month = 0) ∧
    (classifyTrend (-5) = "decreasing" ∧ classifyTrend (-0.05) = "stable" ∧
      classifyTrend 0 = "stable" ∧ classifyTrend 0.05 = "stable" ∧
      classifyTrend 5 = "increasing") := by
  refine ⟨?_, ?_, by with_unfolding_all decide⟩
  · intro dps hlen2 h2
    have h1 : etObservations dps ≠ [] := by
      intro h0
      rw [h0] at hlen2
      exact absurd hlen2 (by simp)
    obtain ⟨pd, d0, dN, _, _, _, hok⟩ := analyzeETData_ok dps h1 h2
    have hlt : 1 < (collectET dps).1.length := by
      rw [collectET_fst]
      simpa using hlen2
    refine ⟨_, hok, ?_, ?_⟩
    · show (if 1 < (collectET dps).1.length then
          (classifyTrend (leastSquaresSlope (collectET dps).1),
           roundTo 3 (leastSquaresSlope (collectET dps).1))
        else ("stable", (0 : ℚ))).2 = _
      rw [if_pos hlt, collectET_fst]
    · show (if 1 < (collectET dps).1.length then
          (classifyTrend (leastSquaresSlope (collectET dps).1),
           roundTo 3 (leastSquaresSlope (collectET dps).1))
        else ("stable", (0 : ℚ))).1 = _
      rw [if_pos hlt, collectET_fst]
  · intro dps hlen1 h2
    have h1 : etObservations dps ≠ [] := by
      intro h0
      rw [h0] at hlen1
      exact absurd hlen1 (by simp)
    obtain ⟨pd, d0, dN, _, _, _, hok⟩ := analyzeETData_ok dps h1 h2
    have hnlt : ¬ 1 < (collectET dps).1.length := by
      rw [collectET_fst]
      simp [hlen1]
    refine ⟨_, hok, ?_, ?_⟩
    · show (if 1 < (collectET dps).1.length then
          (classifyTrend (leastSquaresSlope (collectET dps).1),
           roundTo 3 (leastSquaresSlope (collectET dps).1))
        else ("stable", (0 : ℚ))).1 = _
      rw [if_neg hnlt]
    · show (if 1 < (collectET dps).1.length then
          (classifyTrend (leastSquaresSlope (collectET dps).1),
           roundTo 3 (leastSquaresSlope (collectET dps).1))
        else ("stable", (0 : ℚ))).2 = _
      rw [if_neg hnlt]

/-- Witness for claim C6: the two-month series `[(d1,1), (d2,2)]` (slope 1,
increasing branch of the theorem) and the one-month series `[(d1,5)]`
(stable branch). -/
theorem claim_C6_witness :
    (∃ a, (analyzeETData [⟨"2021-01-01", some 1⟩, ⟨"2021-02-01", some 2⟩]).1 =
        AnalyzeResult.ok a ∧
      a.trend_slope_mm_per_month = roundTo 3 (leastSquaresSlope
        ((etObservations [⟨"2021-01-01", some 1⟩, ⟨"2021-02-01", some 2⟩]).map Prod.snd)) ∧
      a.monthly_trend = classifyTrend (leastSquaresSlope
        ((etObservations [⟨"2021-01-01", some 1⟩, ⟨"2021-02-01", some 2⟩]).map Prod.snd))) ∧
    (∃ a, (analyzeETData [⟨"2021-01-01", some 5⟩]).1 = AnalyzeResult.ok a ∧
      a.monthly_trend = "stable" ∧ a.trend_slope_mm_per_month = 0) :=
  ⟨claim_C6_trend_least_squares.1 [⟨"2021-01-01", some 1⟩, ⟨"2021-02-01", some 2⟩]
     (by with_unfolding_all decide) (by with_unfolding_all decide),
   claim_C6_trend_least_squares.2.1 [⟨"2021-01-01", some 5⟩]
     (by with_unfolding_all decide) (by with_unfolding_all decide)⟩

/-- Claim C3, counterexample.  For the input
`[('oops', 7), ('2021-02-01', 2)]` the maximum ET value 7 occurs first at
the record dated `'oops'`, yet the analyzer reports `peak_et_month =
"2021-02-01"` — the date of the OTHER record — because the unparseable date
shifts the `dates` list relative to `et_values`.  So, as stated for every
input sequence, the claim is false. -/
theorem claim_C3_counterexample :
    ((analyzeETData [⟨"oops", some 7⟩, ⟨"2021-02-01", some 2⟩]).1.getOk.map
      (fun a => a.peak_et_month)) = some "2021-02-01" ∧
    (etObservations [⟨"oops", some 7⟩, ⟨"2021-02-01", some 2⟩]).head? =
      some ("oops", 7) ∧
    listMax ((etObservations [⟨"oops", some 7⟩, ⟨"2021-02-01", some 2⟩]).map
      Prod.snd) = 7 ∧
    ("2021-02-01" : String) ≠ "oops" := by
  with_unfolding_all decide

/-- Claim C3 as amended: for every input whose ET-carrying records all have
parseable dates, `peak_et_month` is the (canonically formatted) date of the
first occurrence, in input order, of the maximum ET value: there is an index
`k` whose value is maximal, strictly exceeds every earlier value, and whose
date formats to the reported peak. -/
theorem claim_C3_peak_first_max_amended (dps : List AnalyzePoint)
    (h1 : etObservations dps ≠ [])
    (h2 : ∀ pr ∈ etObservations dps, (parseDate pr.1).isSome) :
    ∃ a, (analyzeETData dps).1 = AnalyzeResult.ok a ∧
      ∃ (k : ℕ) (hk : k < (etObservations dps).length) (d : Date),
        parseDate ((etObservations dps).get ⟨k, hk⟩).1 = some d ∧
        a.peak_et_month = formatDate d ∧
        (∀ j (hj : j < (etObservations dps).length),
          ((etObservations dps).get ⟨j, hj⟩).2 ≤
            ((etObservations dps).get ⟨k, hk⟩).2) ∧
        (∀ j (hj : j < k),
          ((etObservations dps).get ⟨j, lt_trans hj hk⟩).2 <
            ((etObservations dps).get ⟨k, hk⟩).2) := by
  have hvals := collectET_fst dps
  obtain ⟨pd, d0, dN, hget, hd0, hdN, hok⟩ := analyzeETData_ok dps h1 h2
  have hF := collectET_dates dps h2
  have hlen : (etObservations dps).length = (collectET dps).2.1.length :=
    List.Forall₂.length_eq hF
  have hvne : (collectET dps).1 ≠ [] := by
    rw [hvals]
    simpa using h1
  have hvlen : (collectET dps).1.length = (etObservations dps).length := by
    rw [hvals]
    simp
  have hkv : argmaxIdx (collectET dps).1 < (collectET dps).1.length :=
    argmaxIdx_lt _ hvne
  have hk : argmaxIdx (collectET dps).1 < (etObservations dps).length :=
    hvlen ▸ hkv
  have hkd : argmaxIdx (collectET dps).1 < (collectET dps).2.1.length :=
    hlen ▸ hk
  have hpd : pd = (collectET dps).2.1.get ⟨argmaxIdx (collectET dps).1, hkd⟩ :=
    Option.some.inj (hget.symm.trans (List.get?_eq_get hkd))
  have hparse : parseDate
      ((etObservations dps).get ⟨argmaxIdx (collectET dps).1, hk⟩).1 =
      some ((collectET dps).2.1.get ⟨argmaxIdx (collectET dps).1, hkd⟩) :=
    forall2_get_rel hF _ hk hkd
  have hconv : ∀ (j : ℕ) (hjv : j < (collectET dps).1.length)
      (hjo : j < (etObservations dps).length),
      (collectET dps).1.get ⟨j, hjv⟩ = ((etObservations dps).get ⟨j, hjo⟩).2 := by
    intro j hjv hjo
    simp only [List.get_eq_getElem]
    simp [hvals]
  have hgetk : (collectET dps).1.get ⟨argmaxIdx (collectET dps).1, hkv⟩ =
      listMax (collectET dps).1 := argmaxIdx_get _ hvne
  refine ⟨_, hok, argmaxIdx (collectET dps).1, hk,
    (collectET dps).2.1.get ⟨argmaxIdx (collectET dps).1, hkd⟩, hparse, ?_, ?_, ?_⟩
  · show formatDate pd = _
    rw [hpd]
  · intro j hj
    have hjv : j < (collectET dps).1.length := hvlen.symm ▸ hj
    rw [← hconv j hjv hj, ← hconv _ hkv hk, hgetk]
    exact le_listMax _ _ (List.get_mem _ _ _)
  · intro j hj
    have hjo : j < (etObservations dps).length := lt_trans hj hk
    have hjv : j < (collectET dps).1.length := hvlen.symm ▸ hjo
    rw [← hconv j hjv hjo, ← hconv _ hkv hk, hgetk]
    exact argmaxIdx_first _ j hj hjv

/-- Witness for claim C3's amended theorem at the tied series
`[(2021-01-01,10), (2021-02-01,10), (2021-03-01,5)]`; a direct evaluation
additionally pins the reported peak to the FIRST maximal date
`"2021-01-01"`. -/
theorem claim_C3_witness :
    (∃ a, (analyzeETData [⟨"2021-01-01", some 10⟩, ⟨"2021-02-01", some 10⟩,
        ⟨"2021-03-01", some 5⟩]).1 = AnalyzeResult.ok a ∧
      ∃ (k : ℕ) (hk : k < (etObservations [⟨"2021-01-01", some 10⟩,
          ⟨"2021-02-01", some 10⟩, ⟨"2021-03-01", some 5⟩]).length) (d : Date),
        parseDate ((etObservations [⟨"2021-01-01", some 10⟩,
          ⟨"2021-02-01", some 10⟩, ⟨"2021-03-01", some 5⟩]).get ⟨k, hk⟩).1 = some d ∧
        a.peak_et_month = formatDate d ∧
        (∀ j (hj : j < (etObservations [⟨"2021-01-01", some 10⟩,
            ⟨"2021-02-01", some 10⟩, ⟨"2021-03-01", some 5⟩]).length),
          ((etObservations [⟨"2021-01-01", some 10⟩, ⟨"2021-02-01", some 10⟩,
            ⟨"2021-03-01", some 5⟩]).get ⟨j, hj⟩).2 ≤
            ((etObservations [⟨"2021-01-01", some 10⟩, ⟨"2021-02-01", some 10⟩,
              ⟨"2021-03-01", some 5⟩]).get ⟨k, hk⟩).2) ∧
        (∀ j (hj : j < k),
          ((etObservations [⟨"2021-01-01", some 10⟩, ⟨"2021-02-01", some 10⟩,
            ⟨"2021-03-01", some 5⟩]).get ⟨j, lt_trans hj hk⟩).2 <
            ((etObservations [⟨"2021-01-01", some 10⟩, ⟨"2021-02-01", some 10⟩,
              ⟨"2021-03-01", some 5⟩]).get ⟨k, hk⟩).2)) ∧
    ((analyzeETData [⟨"2021-01-01", some 10⟩, ⟨"2021-02-01", some 10⟩,
        ⟨"2021-03-01", some 5⟩]).1.getOk.map (fun a => a.peak_et_month)) =
      some "2021-01-01" :=
  ⟨claim_C3_peak_first_max_amended
     [⟨"2021-01-01", some 10⟩, ⟨"2021-02-01", some 10⟩, ⟨"2021-03-01", some 5⟩]
     (by with_unfolding_all decide) (by with_unfolding_all decide),
   by with_unfolding_all decide⟩
